import Mathlib

/-!
Verification of the data-normalization and filtering pipeline of the IRVE
dashboard (`app.py`): loading and cleaning the charging-station table,
deriving the department key per row, filtering, and summary aggregation.

Numbers from the CSV (power, coordinates) are modelled as rationals; a
missing (NaN) cell is `Option.none`.  The regular-expression search
`re.search(r'\b(\d{5})\b', s)` is modelled as a left-to-right scan over the
character list, ASCII word characters.
-/

/-- A word character for the `\b` boundary of the regex (ASCII model of
Python's `\w`): letters, digits, or underscore. -/
def isWordChar (c : Char) : Bool := c.isAlphanum || c = '_'

/-- The candidate 5-character token starting at position `i`. -/
def tokenAt (cs : List Char) (i : Nat) : List Char := (cs.drop i).take 5

/-- Does the pattern `\b(\d{5})\b` match at position `i` of `cs`?  Requires
five digit characters at `i`, a non-word character (or the string start)
just before, and a non-word character (or the string end) just after. -/
def matchAtB (cs : List Char) (i : Nat) : Bool :=
  ((tokenAt cs i).length == 5) &&
  (tokenAt cs i).all Char.isDigit &&
  ((i == 0) || !isWordChar (cs.getD (i - 1) ' ')) &&
  (decide (cs.length ≤ i + 5) || !isWordChar (cs.getD (i + 5) ' '))

/-- Left-to-right scan for the first position `≥ i` where the pattern
matches, over at most `fuel` start positions: the model of `re.search`
returning the leftmost match. -/
def searchFromAux (cs : List Char) : Nat → Nat → Option Nat
  | 0, _ => none
  | fuel + 1, i => if matchAtB cs i then some i else searchFromAux cs fuel (i + 1)

/-- Model of `re.search(r'\b(\d{5})\b', s)`: the matched 5-digit group of
the leftmost match, if any.  Every start position `0 .. length` is tried. -/
def re_search_five (s : String) : Option String :=
  (searchFromAux s.data (s.data.length + 1) 0).map (fun i => String.mk (tokenAt s.data i))

/-- Model of Python's `str.isdigit` (ASCII): nonempty and all digits. -/
def pyIsdigit (s : String) : Bool := !s.data.isEmpty && s.data.all Char.isDigit

/-- The address fallback of `trouver_departement` (`app.py` lines 62-67):
search the address for a standalone 5-digit token and keep its first two
characters, else the sentinel `"Inconnu"`. -/
def trouver_via_adresse (adresse : String) : String :=
  match re_search_five adresse with
  | some tok => String.mk (tok.data.take 2)
  | none => "Inconnu"

/-- `trouver_departement` (`app.py` lines 54-69).  First tries the commune
code: if present and `len(code) >= 2 and code.isdigit()`, returns its first
two characters.  Otherwise falls back to the 5-digit token search in the
address.  A missing (NaN) commune code is `none`. -/
def trouver_departement (code_commune : Option String) (adresse : String) : String :=
  match code_commune with
  | some code =>
      if decide (2 ≤ code.length) && pyIsdigit code then String.mk (code.data.take 2)
      else trouver_via_adresse adresse
  | none => trouver_via_adresse adresse

/-- A source row after column projection and rename (`app.py` lines 29-41):
the six whitelisted columns, each possibly missing (NaN). -/
structure RawRow where
  nom_operateur : Option String
  puissance_nominale : Option ℚ
  consolidated_longitude : Option ℚ
  consolidated_latitude : Option ℚ
  code_insee_commune : Option String
  adresse_station : Option String
deriving DecidableEq

/-- A row of the cleaned table: coordinates present, operator and address
filled with their defaults, and the derived department. -/
structure Row where
  operateur : String
  puissance : Option ℚ
  longitude : ℚ
  latitude : ℚ
  code_commune : Option String
  adresse : String
  departement : String
deriving DecidableEq

/-- Per-row cleaning (`app.py` lines 44-72): drop the row when longitude or
latitude is missing, fill the operator with `"Opérateur Inconnu"`, fill the
address with `""`, and derive the department. -/
def cleanRow (raw : RawRow) : Option Row :=
  match raw.consolidated_longitude, raw.consolidated_latitude with
  | some lon, some lat =>
      some { operateur := raw.nom_operateur.getD "Opérateur Inconnu"
           , puissance := raw.puissance_nominale
           , longitude := lon
           , latitude := lat
           , code_commune := raw.code_insee_commune
           , adresse := raw.adresse_station.getD ""
           , departement :=
               trouver_departement raw.code_insee_commune (raw.adresse_station.getD "") }
  | _, _ => none

/-- The cleaning pipeline on successfully fetched rows (`app.py` lines
44-77): clean each row, then drop the rows whose department is the
`"Inconnu"` sentinel (line 75). -/
def load_data_ok (rows : List RawRow) : List Row :=
  (rows.filterMap cleanRow).filter (fun r => r.departement != "Inconnu")

/-- `load_data` (`app.py` lines 15-81).  The fetch-and-parse step either
yields raw rows or fails; the `try/except` at the pipeline boundary turns
any failure into an empty table (lines 79-81). -/
def load_data (fetch : Except String (List RawRow)) : List Row :=
  match fetch with
  | .ok rows => load_data_ok rows
  | .error _ => []

/-- Department filter (`app.py` lines 121-122): exact equality, skipped
when the sentinel `"Tous"` ("all") is selected. -/
def filter_departement (rows : List Row) (choix : String) : List Row :=
  if choix = "Tous" then rows else rows.filter (fun r => r.departement == choix)

/-- Power filter (`app.py` lines 124-125): keep rows with
`power >= min_power`.  A missing (NaN) power compares false in pandas, so
such rows are dropped. -/
def filter_puissance (rows : List Row) (min_power : ℚ) : List Row :=
  rows.filter (fun r =>
    match r.puissance with
    | some p => decide (min_power ≤ p)
    | none => false)

/-- The filter block (`app.py` lines 119-125): department filter then
power filter. -/
def get_filtered (rows : List Row) (choix : String) (min_power : ℚ) : List Row :=
  filter_puissance (filter_departement rows choix) min_power

/-- Number of occurrences of `x` in `l`. -/
def countOcc (l : List String) (x : String) : Nat := (l.filter (fun y => y == x)).length

/-- Model of `Series.mode()[0]`: an element of maximal multiplicity; ties
broken towards the smaller string, as pandas sorts the mode values. -/
def pdMode (l : List String) : String :=
  (l.foldl (fun best x =>
    match best with
    | none => some x
    | some b =>
        if countOcc l b < countOcc l x then some x
        else if countOcc l x == countOcc l b && decide (x < b) then some x
        else some b) none).getD "-"

/-- Python's `round` to the nearest integer, half to even. -/
def roundHalfEven (q : ℚ) : ℤ :=
  let f := ⌊q⌋
  if q - f < 1/2 then f
  else if 1/2 < q - f then f + 1
  else if f % 2 = 0 then f else f + 1

/-- `round(x, 1)`: round to one decimal place. -/
def pyRound1 (q : ℚ) : ℚ := (roundHalfEven (q * 10) : ℚ) / 10

/-- The three KPI values (`app.py` lines 129-135). -/
structure Summary where
  count : Nat
  moyenne : Option ℚ
  top_op : String
deriving DecidableEq

/-- The KPI block (`app.py` lines 129-135): row count; mean power rounded
to 1 decimal, guarded to `0` on an empty view (`none` models the NaN mean
of a nonempty view whose power column is all missing); most frequent
operator, guarded to `"-"` on an empty view. -/
def summarize (rows : List Row) : Summary :=
  { count := rows.length
  , moyenne :=
      if rows.isEmpty then some 0
      else
        let vals := rows.filterMap (fun r => r.puissance)
        if vals.isEmpty then none
        else some (pyRound1 (vals.sum / (vals.length : ℚ)))
  , top_op := if rows.isEmpty then "-" else pdMode (rows.map (fun r => r.operateur)) }

/-! ### Helper lemmas about the regex-search model -/

theorem matchAtB_bound {cs : List Char} {i : Nat} (h : matchAtB cs i = true) :
    i + 5 ≤ cs.length := by
  have h1 : (tokenAt cs i).length = 5 := by
    simp only [matchAtB, Bool.and_eq_true, beq_iff_eq] at h
    exact h.1.1.1
  simp only [tokenAt, List.length_take, List.length_drop] at h1
  omega

theorem matchAtB_token {cs : List Char} {i : Nat} (h : matchAtB cs i = true) :
    (tokenAt cs i).length = 5 ∧ ∀ c ∈ tokenAt cs i, c.isDigit = true := by
  simp only [matchAtB, Bool.and_eq_true, beq_iff_eq, List.all_eq_true] at h
  exact ⟨h.1.1.1, h.1.1.2⟩

theorem searchFromAux_sound (cs : List Char) :
    ∀ (fuel i k : Nat), searchFromAux cs fuel i = some k →
      i ≤ k ∧ matchAtB cs k = true ∧ ∀ j, i ≤ j → j < k → matchAtB cs j = false := by
  intro fuel
  induction fuel with
  | zero => intro i k h; simp [searchFromAux] at h
  | succ n ih =>
    intro i k h
    by_cases hm : matchAtB cs i = true
    · rw [searchFromAux, if_pos hm] at h
      cases h
      exact ⟨le_refl _, hm, fun j h1 h2 => absurd h2 (by omega)⟩
    · rw [searchFromAux, if_neg hm] at h
      obtain ⟨h1, h2, h3⟩ := ih (i + 1) k h
      refine ⟨by omega, h2, fun j hj1 hj2 => ?_⟩
      rcases Nat.eq_or_lt_of_le hj1 with rfl | hlt
      · exact Bool.eq_false_iff.mpr hm
      · exact h3 j hlt hj2

theorem searchFromAux_complete (cs : List Char) :
    ∀ (fuel i0 i : Nat), i0 ≤ i → i < i0 + fuel → matchAtB cs i = true →
      (∀ j, i0 ≤ j → j < i → matchAtB cs j = false) →
      searchFromAux cs fuel i0 = some i := by
  intro fuel
  induction fuel with
  | zero => intro i0 i h1 h2 _ _; omega
  | succ n ih =>
    intro i0 i h1 h2 hm hmin
    rcases Nat.eq_or_lt_of_le h1 with rfl | hlt
    · rw [searchFromAux, if_pos hm]
    · have hz : matchAtB cs i0 = false := hmin i0 le_rfl hlt
      rw [searchFromAux, if_neg (by simp [hz])]
      exact ih (i0 + 1) i (by omega) (by omega) hm (fun j a b => hmin j (by omega) b)

theorem re_search_five_leftmost {s : String} {i : Nat}
    (hm : matchAtB s.data i = true) (hmin : ∀ j, j < i → matchAtB s.data j = false) :
    re_search_five s = some (String.mk (tokenAt s.data i)) := by
  have hb := matchAtB_bound hm
  have hfind := searchFromAux_complete s.data (s.data.length + 1) 0 i (Nat.zero_le _)
    (by omega) hm (fun j _ b => hmin j b)
  unfold re_search_five
  rw [hfind]
  rfl

theorem re_search_five_shape {s tok : String} (h : re_search_five s = some tok) :
    tok.data.length = 5 ∧ ∀ c ∈ tok.data, c.isDigit = true := by
  unfold re_search_five at h
  cases hs : searchFromAux s.data (s.data.length + 1) 0 with
  | none => rw [hs] at h; simp at h
  | some i =>
    rw [hs] at h
    simp only [Option.map_some'] at h
    obtain ⟨hlen, hdig⟩ := matchAtB_token (searchFromAux_sound s.data _ _ _ hs).2.1
    cases h
    exact ⟨hlen, hdig⟩

/-! ### Helper lemmas about the department derivation and the pipeline -/

theorem trouver_via_adresse_shape (ad : String) :
    trouver_via_adresse ad = "Inconnu" ∨
      ((trouver_via_adresse ad).length = 2 ∧
        ∀ c ∈ (trouver_via_adresse ad).data, c.isDigit = true) := by
  unfold trouver_via_adresse
  cases h : re_search_five ad with
  | none => left; rfl
  | some tok =>
    right
    obtain ⟨hlen, hdig⟩ := re_search_five_shape h
    constructor
    · show (tok.data.take 2).length = 2
      rw [List.length_take]
      omega
    · intro c hc
      exact hdig c (List.take_subset _ _ hc)

theorem trouver_departement_shape (cc : Option String) (ad : String) :
    trouver_departement cc ad = "Inconnu" ∨
      ((trouver_departement cc ad).length = 2 ∧
        ∀ c ∈ (trouver_departement cc ad).data, c.isDigit = true) := by
  cases cc with
  | none => exact trouver_via_adresse_shape ad
  | some code =>
    simp only [trouver_departement]
    by_cases h : (decide (2 ≤ code.length) && pyIsdigit code) = true
    · rw [if_pos h]
      right
      simp only [Bool.and_eq_true, decide_eq_true_eq] at h
      obtain ⟨hlen, hdig⟩ := h
      simp only [pyIsdigit, Bool.and_eq_true, List.all_eq_true] at hdig
      constructor
      · show (code.data.take 2).length = 2
        rw [List.length_take]
        have hl : code.length = code.data.length := rfl
        omega
      · intro c hc
        exact hdig.2 c (List.take_subset _ _ hc)
    · rw [if_neg h]
      exact trouver_via_adresse_shape ad

/-- When the commune-code branch does not apply and the address search
finds a token, `trouver_departement` returns the token's first two
characters. -/
theorem trouver_departement_of_search (cc : Option String) (ad tok : String)
    (hcc : ∀ code, cc = some code → ¬(2 ≤ code.length ∧ pyIsdigit code = true))
    (hsearch : re_search_five ad = some tok) :
    trouver_departement cc ad = String.mk (tok.data.take 2) := by
  have hvia : trouver_via_adresse ad = String.mk (tok.data.take 2) := by
    unfold trouver_via_adresse
    rw [hsearch]
  cases cc with
  | none => exact hvia
  | some code =>
    have hcond : ¬ ((decide (2 ≤ code.length) && pyIsdigit code) = true) := by
      simp only [Bool.and_eq_true, decide_eq_true_eq]
      exact hcc code rfl
    simp only [trouver_departement]
    rw [if_neg hcond]
    exact hvia

/-- Every cleaned row carries the department derived from its own commune
code and address fields. -/
theorem cleanRow_departement {raw : RawRow} {r : Row} (h : cleanRow raw = some r) :
    r.departement = trouver_departement r.code_commune r.adresse := by
  obtain ⟨op, pu, lon, lat, cc, ad⟩ := raw
  cases lon with
  | none => simp [cleanRow] at h
  | some lon' =>
    cases lat with
    | none => simp [cleanRow] at h
    | some lat' =>
      simp only [cleanRow, Option.some.injEq] at h
      subst h
      rfl

/-- Membership in the final table forces a non-sentinel department that
agrees with the derivation on the row's own fields. -/
theorem mem_load_data {fetch : Except String (List RawRow)} {r : Row}
    (h : r ∈ load_data fetch) :
    r.departement ≠ "Inconnu" ∧
      r.departement = trouver_departement r.code_commune r.adresse := by
  cases fetch with
  | error e => simp [load_data] at h
  | ok rows =>
    simp only [load_data, load_data_ok] at h
    rw [List.mem_filter] at h
    obtain ⟨hmem, hne⟩ := h
    refine ⟨by simpa using hne, ?_⟩
    rw [List.mem_filterMap] at hmem
    obtain ⟨raw, _, hclean⟩ := hmem
    exact cleanRow_departement hclean

/-! ### Concrete rows used by witnesses and counterexamples -/

/-- A raw row with a 3-character all-digit commune code and an address with
no 5-digit token. -/
def rawDigits3 : RawRow :=
  { nom_operateur := none
  , puissance_nominale := none
  , consolidated_longitude := some 1
  , consolidated_latitude := some 1
  , code_insee_commune := some "123"
  , adresse_station := none }

/-- A raw row with full coordinates and a valid Paris commune code. -/
def raw75 : RawRow :=
  { nom_operateur := some "Izivia"
  , puissance_nominale := some 22
  , consolidated_longitude := some 2
  , consolidated_latitude := some 48
  , code_insee_commune := some "75056"
  , adresse_station := some "1 Rue de Rivoli 75001 Paris" }

/-- The cleaned row produced from `raw75`. -/
def row75 : Row :=
  { operateur := "Izivia"
  , puissance := some 22
  , longitude := 2
  , latitude := 48
  , code_commune := some "75056"
  , adresse := "1 Rue de Rivoli 75001 Paris"
  , departement := "75" }

/-- A raw row whose longitude is missing. -/
def rawNoLon : RawRow :=
  { nom_operateur := some "A"
  , puissance_nominale := some 7
  , consolidated_longitude := none
  , consolidated_latitude := some 48
  , code_insee_commune := some "75056"
  , adresse_station := some "x" }

/-! ### Claims -/

/-- Claim C1, as stated, is false on the code: the commune code takes
precedence over the address token.  For address `"12 Rue X 75015 Paris"`
and commune code `"69123"` the derived department is `"69"`, not `"75"`. -/
theorem C1_counterexample :
    trouver_departement (some "69123") "12 Rue X 75015 Paris" = "69" ∧
      ("69" : String) ≠ "75" := by decide

/-- Claim C1 (amended): for every row whose address contains a standalone
word-boundary-delimited 5-digit token, the derived department is the
token's first 2 characters, provided the commune-code branch does not apply
(commune code missing, shorter than 2 characters, or not all digits);
otherwise the commune code takes precedence. -/
theorem C1_address_token_department (cc : Option String) (ad tok : String)
    (hcc : ∀ code, cc = some code → ¬(2 ≤ code.length ∧ pyIsdigit code = true))
    (hsearch : re_search_five ad = some tok) :
    trouver_departement cc ad = String.mk (tok.data.take 2) :=
  trouver_departement_of_search cc ad tok hcc hsearch

/-- Claim C1 witness: with no commune code, address
`"12 Rue X 75015 Paris"` yields department `"75"`. -/
theorem C1_witness : trouver_departement none "12 Rue X 75015 Paris" = "75" := by
  have h := C1_address_token_department none "12 Rue X 75015 Paris" "75015"
    (fun code hc => Option.noConfusion hc) (by decide)
  rw [h]
  rfl

/-- Claim C2, as stated, is false on the code: the commune-code check is
`len >= 2 and isdigit`, not `len == 5`.  The all-digit 3-character commune
code `"123"` (address without any 5-digit token) yields department `"12"`,
and the row is kept in the final table rather than dropped. -/
theorem C2_counterexample :
    trouver_departement (some "123") "" = "12" ∧
      load_data (Except.ok [rawDigits3]) =
        [{ operateur := "Opérateur Inconnu"
         , puissance := none
         , longitude := 1
         , latitude := 1
         , code_commune := some "123"
         , adresse := ""
         , departement := "12" }] := by decide

/-- Claim C2 (amended): the commune code is used to derive the department
whenever it is all digits and at least 2 characters long (not only exactly
5); its first 2 characters become the department. -/
theorem C2_commune_at_least_two_digits (cc ad : String)
    (hdig : pyIsdigit cc = true) (hlen : 2 ≤ cc.length) :
    trouver_departement (some cc) ad = String.mk (cc.data.take 2) := by
  have hc : (decide (2 ≤ cc.length) && pyIsdigit cc) = true := by simp [hdig, hlen]
  simp only [trouver_departement]
  rw [if_pos hc]

/-- Claim C2 witness: commune code `"69123"` with a token-free address
yields department `"69"`. -/
theorem C2_witness : trouver_departement (some "69123") "" = "69" := by
  have h := C2_commune_at_least_two_digits "69123" "" (by decide) (by decide)
  rw [h]
  rfl

/-- Claim C3: every row of the final table has a department that is not the
`"Inconnu"` sentinel and is exactly 2 characters long; rows whose
department cannot be determined are excluded from the table entirely. -/
theorem C3_final_table_departements (fetch : Except String (List RawRow)) (r : Row)
    (h : r ∈ load_data fetch) :
    r.departement ≠ "Inconnu" ∧ r.departement.length = 2 := by
  obtain ⟨hne, heq⟩ := mem_load_data h
  refine ⟨hne, ?_⟩
  rcases trouver_departement_shape r.code_commune r.adresse with hI | ⟨hlen, _⟩
  · rw [← heq] at hI
    exact absurd hI hne
  · rw [← heq] at hlen
    exact hlen

/-- Claim C3 witness: the table loaded from `raw75` contains `row75`, whose
department `"75"` is non-sentinel and 2 characters long. -/
theorem C3_witness : row75.departement ≠ "Inconnu" ∧ row75.departement.length = 2 :=
  C3_final_table_departements (Except.ok [raw75]) row75 (by decide)

/-- Claim C4: a row whose address has no standalone 5-digit token and whose
commune code contains a non-digit character derives the `"Inconnu"`
sentinel, and no such row appears in the final table. -/
theorem C4_nonnumeric_commune (cc ad : String)
    (hnd : ∃ c ∈ cc.data, ¬ c.isDigit)
    (hsearch : re_search_five ad = none) :
    trouver_departement (some cc) ad = "Inconnu" ∧
      ∀ (fetch : Except String (List RawRow)) (r : Row), r ∈ load_data fetch →
        ¬(r.code_commune = some cc ∧ r.adresse = ad) := by
  have hdig : pyIsdigit cc = false := by
    obtain ⟨c, hc, hnotd⟩ := hnd
    cases hall : cc.data.all Char.isDigit with
    | false => simp [pyIsdigit, hall]
    | true =>
      exfalso
      rw [List.all_eq_true] at hall
      exact hnotd (by simpa using hall c hc)
  have hmain : trouver_departement (some cc) ad = "Inconnu" := by
    simp only [trouver_departement]
    rw [if_neg (by simp [hdig])]
    unfold trouver_via_adresse
    rw [hsearch]
  refine ⟨hmain, ?_⟩
  rintro fetch r hr ⟨hcc, had⟩
  obtain ⟨hne, heq⟩ := mem_load_data hr
  apply hne
  rw [heq, hcc, had, hmain]

/-- Claim C4 witness: commune code `"2A004"` with token-free address
`"12 Rue X"` derives the `"Inconnu"` sentinel. -/
theorem C4_witness : trouver_departement (some "2A004") "12 Rue X" = "Inconnu" :=
  (C4_nonnumeric_commune "2A004" "12 Rue X" (by decide) (by decide)).1

/-- Claim C5, as stated, is false on the code: the empty-view top-operator
placeholder is `"-"`, not `"n/a"`. -/
theorem C5_counterexample :
    (summarize ([] : List Row)).top_op = "-" ∧ ("-" : String) ≠ "n/a" := by decide

/-- Claim C5 (amended): summarizing an empty filtered view returns count 0,
mean power 0, and top operator `"-"` (a not-applicable placeholder), and
raises no exception. -/
theorem C5_empty_summary :
    summarize ([] : List Row) = { count := 0, moyenne := some 0, top_op := "-" } := rfl

/-- Claim C6: the department filter (exact equality, skipped for the
`"Tous"` sentinel) and the inclusive power filter commute: applying them in
either order yields the same rows.  Both are pure functions on the table:
there is no mutation of the base list. -/
theorem C6_filters_commute (rows : List Row) (choix : String) (min_power : ℚ) :
    filter_puissance (filter_departement rows choix) min_power =
      filter_departement (filter_puissance rows min_power) choix := by
  unfold filter_departement filter_puissance
  by_cases h : choix = "Tous"
  · rw [if_pos h, if_pos h]
  · rw [if_neg h, if_neg h, List.filter_filter, List.filter_filter]
    congr 1
    funext r
    exact Bool.and_comm _ _

/-- Claim C7: a source row with a missing longitude or latitude contributes
nothing to the cleaned table, wherever it sits among the fetched rows. -/
theorem C7_null_coords_dropped (raw : RawRow)
    (h : raw.consolidated_longitude = none ∨ raw.consolidated_latitude = none) :
    ∀ rows1 rows2 : List RawRow,
      load_data_ok (rows1 ++ raw :: rows2) = load_data_ok (rows1 ++ rows2) := by
  have hclean : cleanRow raw = none := by
    obtain ⟨op, pu, lon, lat, cc, ad⟩ := raw
    rcases h with h | h
    · have h2 : lon = none := h
      subst h2
      rfl
    · have h2 : lat = none := h
      subst h2
      cases lon <;> rfl
  intro rows1 rows2
  simp [load_data_ok, List.filterMap_append, List.filterMap_cons, hclean]

/-- Claim C7 witness: the row with a missing longitude yields the same
(empty) table as no row at all. -/
theorem C7_witness : load_data_ok [rawNoLon] = load_data_ok [] :=
  C7_null_coords_dropped rawNoLon (Or.inl rfl) [] []

/-- Claim C8: any fetch or parse failure resolves to an empty table at the
pipeline boundary; `load_data` is total, so the failure never escapes. -/
theorem C8_fetch_failure_empty_table (msg : String) :
    load_data (Except.error msg) = [] := rfl

/-- Claim C9: the department derivation is total, and on every input it
returns either the sentinel `"Inconnu"` or a string of exactly 2 digit
characters. -/
theorem C9_trouver_total_shape (cc : Option String) (ad : String) :
    trouver_departement cc ad = "Inconnu" ∨
      ((trouver_departement cc ad).length = 2 ∧
        ∀ c ∈ (trouver_departement cc ad).data, c.isDigit = true) :=
  trouver_departement_shape cc ad

/-- Claim C10: when the commune-code path does not apply and the address
matches the 5-digit pattern at position `i` but at no earlier position, the
department is derived from that leftmost token: its first 2 characters. -/
theorem C10_leftmost_token (cc : Option String) (ad : String) (i : Nat)
    (hcc : ∀ code, cc = some code → ¬(2 ≤ code.length ∧ pyIsdigit code = true))
    (hm : matchAtB ad.data i = true)
    (hmin : ∀ j, j < i → matchAtB ad.data j = false) :
    trouver_departement cc ad = String.mk ((ad.data.drop i).take 2) := by
  have hs := re_search_five_leftmost hm hmin
  have h := trouver_departement_of_search cc ad (String.mk (tokenAt ad.data i)) hcc hs
  rw [h]
  congr 1
  show ((ad.data.drop i).take 5).take 2 = (ad.data.drop i).take 2
  rw [List.take_take]
  norm_num

/-- Claim C10 witness: in `"75015 13001"` both positions 0 and 6 match; the
leftmost token `"75015"` gives department `"75"`. -/
theorem C10_witness : trouver_departement none "75015 13001" = "75" := by
  have h := C10_leftmost_token none "75015 13001" 0
    (fun code hc => Option.noConfusion hc) (by decide)
    (fun j hj => absurd hj (Nat.not_lt_zero j))
  rw [h]
  rfl
